import Mathlib

/-!
# Verification of the Escape_Plan VIN identification and caching pipeline

This file gives a shallow embedding, in Lean 4, of the VIN pipeline of the
Escape_Plan repository: the VIN syntax validator, the client-side
VinService.decodeVin with its in-memory cache and two-tier network fallback,
the backend decode-vin endpoint, and the camera Scanner's candidate
dispatcher. Network calls are modelled by explicit outcome parameters;
JavaScript timers (the 5-minute failure-cache eviction) are modelled by an
absolute expiry timestamp attached to the cache entry at insertion time.
Machine strings are Lean Strings; upper-casing is ASCII upper-casing, which
agrees with JavaScript toUpperCase on the relevant alphabet.
-/

/-- ASCII upper-casing of a string, modelling JavaScript toUpperCase
(the strings handled by the pipeline are ASCII). -/
def upperString (s : String) : String := ⟨s.data.map Char.toUpper⟩

/-- One character of the VIN alphabet, transliterated from the regular
expression used uniformly by the client service, the scanner and the
backend: /^[A-HJ-NPR-Z0-9]\x7b17\x7d$/ . -/
def isVinChar (c : Char) : Bool :=
  ('A' ≤ c && c ≤ 'H') || ('J' ≤ c && c ≤ 'N') || c == 'P' ||
    ('R' ≤ c && c ≤ 'Z') || ('0' ≤ c && c ≤ '9')

/-- The test of the regular expression /^[A-HJ-NPR-Z0-9]\x7b17\x7d$/ on a raw
string. This is the VIN_PATTERN test of src/src/components/Scanner.tsx and
the vinPattern test of the backend decode-vin endpoint. -/
def vinMatch (s : String) : Bool :=
  s.length == 17 && s.toList.all isVinChar

/-- VinService.isValidVinFormat (src/unnamed/part_000, lines 364-368):
upper-case the input, then test the VIN regular expression. -/
def isValidVinFormat (vin : String) : Bool :=
  vinMatch (upperString vin)

/-- The spec's character class, written from the spec's words: a character
of [A-Z0-9] that is not I, O or Q. -/
def specVinChar (c : Char) : Bool :=
  (('A' ≤ c && c ≤ 'Z') && !(c == 'I' || c == 'O' || c == 'Q')) ||
    ('0' ≤ c && c ≤ '9')

/-- The spec's VIN grammar, written from the spec's words: exactly 17
characters, each drawn from [A-Z0-9] excluding I, O, Q. -/
def specVinFormat (s : String) : Bool :=
  s.length == 17 && s.toList.all specVinChar

theorem char_le_iff_toNat (a b : Char) : a ≤ b ↔ a.toNat ≤ b.toNat := Iff.rfl

theorem char_eq_iff_toNat (a b : Char) : a = b ↔ a.toNat = b.toNat := by
  rw [Char.ext_iff, UInt32.ext_iff]
  rfl

theorem vinChar_eq_specVinChar (c : Char) : isVinChar c = specVinChar c := by
  rw [Bool.eq_iff_iff]
  simp only [isVinChar, specVinChar, Bool.or_eq_true, Bool.and_eq_true,
    decide_eq_true_eq, beq_iff_eq, Bool.not_eq_true', Bool.or_eq_false_iff,
    beq_eq_false_iff_ne, ne_eq, char_le_iff_toNat, char_eq_iff_toNat]
  simp only [show ('A' : Char).toNat = 65 from rfl, show ('H' : Char).toNat = 72 from rfl,
    show ('J' : Char).toNat = 74 from rfl, show ('N' : Char).toNat = 78 from rfl,
    show ('P' : Char).toNat = 80 from rfl, show ('R' : Char).toNat = 82 from rfl,
    show ('Z' : Char).toNat = 90 from rfl, show ('0' : Char).toNat = 48 from rfl,
    show ('9' : Char).toNat = 57 from rfl, show ('I' : Char).toNat = 73 from rfl,
    show ('O' : Char).toNat = 79 from rfl, show ('Q' : Char).toNat = 81 from rfl]
  omega

/-- The VehicleInfo interface of src/unnamed/part_000 (lines 205-225).
Fields that the TypeScript code leaves undefined on some records are
Option String; year, make, model are always assigned strings (possibly
empty), as in the source. -/
structure VehicleInfo where
  vin : String
  year : String
  make : String
  model : String
  trim : Option String := none
  engine : Option String := none
  displacement : Option String := none
  cylinders : Option String := none
  fuel_type : Option String := none
  vehicle_type : Option String := none
  body_class : Option String := none
  drive_type : Option String := none
  transmission : Option String := none
  manufacturer : Option String := none
  plant_city : Option String := none
  plant_state : Option String := none
  valid : Bool
  cached_at : Option String := none
  error : Option String := none
  deriving Repr, DecidableEq

/-- One row of the NHTSA decodevin tabular response: a Variable name and a
possibly-null Value. -/
structure NhtsaRow where
  Variable : String
  Value : Option String
  deriving Repr, DecidableEq

/-- findResult (src/unnamed/part_000, lines 359-362, and the identical
helper of the backend endpoint): first row whose Variable equals the
requested name; its Value, with null (and absent rows) collapsed to the
empty string by the JavaScript || fallback. -/
def findResult (results : List NhtsaRow) (variableName : String) : String :=
  match results.find? (fun r => r.Variable == variableName) with
  | some r => r.Value.getD ""
  | none => ""

/-- Outcome of one fetch of the NHTSA decodevin endpoint, as observed by
the caller: a parsed Results list on HTTP success, or failure (non-success
status or a rejected fetch — both paths throw in the source). -/
inductive NhtsaResult where
  | ok (results : List NhtsaRow)
  | failure
  deriving Repr, DecidableEq

/-- Outcome of one POST to the backend decode-vin proxy, as observed by
the client: a parsed VehicleInfo body when response.ok, an HTTP error
status (the client then throws), or a transport error (fetch rejected). -/
inductive BackendResult where
  | ok (body : VehicleInfo)
  | httpError
  | transportError
  deriving Repr, DecidableEq

/-- One entry of the client-side VinService cache. expiresAt models the
setTimeout scheduled by the failure path of decodeVin: the absolute time
(ms) at which the scheduled delete fires; none for entries with no
scheduled delete. -/
structure CacheEntry where
  record : VehicleInfo
  expiresAt : Option Nat
  deriving Repr, DecidableEq

/-- The private cache of VinService: a Map from normalized VIN to
VehicleInfo, newest binding first. -/
structure VinCache where
  entries : List (String × CacheEntry)
  deriving Repr, DecidableEq

def VinCache.empty : VinCache := ⟨[]⟩

/-- this.cache.get(k) at absolute time now: the current binding of k,
absent when there is none or when the scheduled delete for the current
binding has already fired. -/
def cacheGet (now : Nat) (c : VinCache) (k : String) : Option VehicleInfo :=
  match c.entries.find? (fun e => e.1 == k) with
  | some e => if e.2.expiresAt.all (fun t => now < t) then some e.2.record else none
  | none => none

/-- this.cache.set(k, r), together with the optional scheduled delete. -/
def cacheSet (c : VinCache) (k : String) (r : VehicleInfo) (expiry : Option Nat) : VinCache :=
  ⟨(k, ⟨r, expiry⟩) :: c.entries⟩

/-- The record decodeVin returns for a syntactically invalid VIN
(src/unnamed/part_000, lines 232-241). -/
def invalidFormatRecord (vin : String) : VehicleInfo :=
  { vin := upperString vin, year := "", make := "", model := "",
    valid := false, error := some "Invalid VIN format" }

/-- The errorInfo record of decodeVin's catch block
(src/unnamed/part_000, lines 291-298). -/
def failedDecodeRecord (normalizedVin : String) : VehicleInfo :=
  { vin := normalizedVin, year := "", make := "", model := "",
    valid := false, error := some "Failed to decode VIN" }

/-- 5 * 60 * 1000 ms: the client-side retention of a failed decode. -/
def fiveMinutesMs : Nat := 5 * 60 * 1000

/-- The vehicleInfo record built by directNhtsaCall from a parsed NHTSA
Results list (src/unnamed/part_000, lines 322-347): fixed variable names,
valid iff year, make and model are all non-empty (JavaScript truthiness of
strings), error set exactly when not valid. -/
def nhtsaRecord (vin : String) (results : List NhtsaRow) (nowIso : String) : VehicleInfo :=
  let year := findResult results "Model Year"
  let make := findResult results "Make"
  let model := findResult results "Model"
  let valid := !(year == "") && !(make == "") && !(model == "")
  { vin := vin, year := year, make := make, model := model,
    trim := some (findResult results "Trim"),
    engine := some (findResult results "Engine Model"),
    displacement := some (findResult results "Displacement (L)"),
    cylinders := some (findResult results "Engine Number of Cylinders"),
    fuel_type := some (findResult results "Fuel Type - Primary"),
    vehicle_type := some (findResult results "Vehicle Type"),
    body_class := some (findResult results "Body Class"),
    drive_type := some (findResult results "Drive Type"),
    transmission := some (findResult results "Transmission Style"),
    manufacturer := some (findResult results "Manufacturer Name"),
    plant_city := some (findResult results "Plant City"),
    plant_state := some (findResult results "Plant State"),
    valid := valid,
    cached_at := some nowIso,
    error := if valid then none else some "Vehicle information not found" }

/-- directNhtsaCall (src/unnamed/part_000, lines 308-357): on fetch
success, build the record, cache it (no scheduled delete) and return it;
on failure (non-ok status or rejected fetch) log and rethrow, leaving the
cache untouched. Except.error models the rethrown exception. -/
def directNhtsaCall (cache : VinCache) (vin : String) (nhtsa : NhtsaResult)
    (nowIso : String) : Except Unit VehicleInfo × VinCache :=
  match nhtsa with
  | .ok results =>
      let info := nhtsaRecord vin results nowIso
      (.ok info, cacheSet cache vin info none)
  | .failure => (.error (), cache)

deriving instance DecidableEq for Except

/-- The full observable outcome of one decodeVin call: the resolved record
or the escaped exception, the cache afterwards, and whether each network
path was invoked. -/
structure DecodeOutcome where
  result : Except Unit VehicleInfo
  cache : VinCache
  backendCalled : Bool
  nhtsaCalled : Bool
  deriving Repr, DecidableEq

/-- VinService.decodeVin (src/unnamed/part_000, lines 230-306), with the
two network calls replaced by their observed outcomes. now is the absolute
time (ms) of the call; nowIso the matching ISO timestamp string. -/
def decodeVin (cache : VinCache) (vin : String) (accessToken : Option String)
    (backend : BackendResult) (nhtsa : NhtsaResult) (now : Nat) (nowIso : String) :
    DecodeOutcome :=
  if !isValidVinFormat vin then
    { result := .ok (invalidFormatRecord vin), cache := cache,
      backendCalled := false, nhtsaCalled := false }
  else
    let normalizedVin := upperString vin
    match cacheGet now cache normalizedVin with
    | some cached =>
        { result := .ok cached, cache := cache,
          backendCalled := false, nhtsaCalled := false }
    | none =>
        match accessToken with
        | some _ =>
            match backend with
            | .ok vehicleData =>
                { result := .ok vehicleData,
                  cache := cacheSet cache normalizedVin vehicleData none,
                  backendCalled := true, nhtsaCalled := false }
            | _ =>
                let r := directNhtsaCall cache normalizedVin nhtsa nowIso
                { result := r.1, cache := r.2,
                  backendCalled := true, nhtsaCalled := true }
        | none =>
            match directNhtsaCall cache normalizedVin nhtsa nowIso with
            | (.ok info, c2) =>
                { result := .ok info, cache := c2,
                  backendCalled := false, nhtsaCalled := true }
            | (.error _, _) =>
                { result := .ok (failedDecodeRecord normalizedVin),
                  cache := cacheSet cache normalizedVin
                    (failedDecodeRecord normalizedVin) (some (now + fiveMinutesMs)),
                  backendCalled := false, nhtsaCalled := true }

/-! ## The backend decode-vin endpoint
(src/src/supabase/functions/server/index.tsx, lines 459-567) -/

/-- The backend key-value store (the kv module of the server): a plain
persistent map from key to stored vehicle record, newest binding first. -/
structure KvStore where
  entries : List (String × VehicleInfo)
  deriving Repr, DecidableEq

def kvGet (kv : KvStore) (k : String) : Option VehicleInfo :=
  (kv.entries.find? (fun e => e.1 == k)).map (fun e => e.2)

def kvSet (kv : KvStore) (k : String) (v : VehicleInfo) : KvStore :=
  ⟨(k, v) :: kv.entries⟩

/-- The vehicleData record built by the backend endpoint from a parsed
NHTSA Results list (index.tsx lines 507-538). Identical extraction to the
client's directNhtsaCall, but with the backend's distinct error message. -/
def backendNhtsaRecord (normalizedVin : String) (results : List NhtsaRow)
    (nowIso : String) : VehicleInfo :=
  let base := nhtsaRecord normalizedVin results nowIso
  { base with
    error := if base.valid then none else some "Vehicle information not found for this VIN" }

/-- The errorResponse record of the backend endpoint's NHTSA-failure path
(index.tsx lines 548-556). -/
def backendErrorRecord (normalizedVin : String) (nowIso : String) : VehicleInfo :=
  { vin := normalizedVin, year := "", make := "", model := "",
    valid := false, error := some "Failed to decode VIN via NHTSA API",
    cached_at := some nowIso }

/-- One HTTP response of the backend endpoint, plus the kv store afterwards. -/
structure EndpointResult where
  status : Nat
  body : Option VehicleInfo
  kv : KvStore
  deriving Repr, DecidableEq

/-- The POST /decode-vin handler (index.tsx lines 460-567): require a
non-empty vin field, validate the upper-cased VIN against the same
pattern, consult the kv cache under the vehicle-prefixed key, otherwise
decode via NHTSA and cache the result (success and failure alike). -/
def decodeVinEndpoint (kv : KvStore) (vin : Option String) (nhtsa : NhtsaResult)
    (nowIso : String) : EndpointResult :=
  match vin with
  | none => ⟨400, none, kv⟩
  | some v =>
      if v == "" then ⟨400, none, kv⟩
      else if !(vinMatch (upperString v)) then ⟨400, none, kv⟩
      else
        let normalizedVin := upperString v
        match kvGet kv ("vehicle:" ++ normalizedVin) with
        | some cachedVehicle => ⟨200, some cachedVehicle, kv⟩
        | none =>
            match nhtsa with
            | .ok results =>
                let vehicleData := backendNhtsaRecord normalizedVin results nowIso
                ⟨200, some vehicleData, kvSet kv ("vehicle:" ++ normalizedVin) vehicleData⟩
            | .failure =>
                let errorResponse := backendErrorRecord normalizedVin nowIso
                ⟨500, some errorResponse, kvSet kv ("vehicle:" ++ normalizedVin) errorResponse⟩

/-- What the client's fetch of the backend proxy observes when the proxy
is reachable and served by decodeVinEndpoint: the parsed body when the
status is a success, an HTTP error otherwise. -/
def backendResultOf (er : EndpointResult) : BackendResult :=
  if er.status == 200 then
    match er.body with
    | some b => .ok b
    | none => .httpError
  else .httpError

/-! ## The Scanner candidate dispatcher
(src/src/components/Scanner.tsx) -/

/-- The test of the regular expression /^\d\x7b8,14\x7d$/ : the
BARCODE_PATTERN of Scanner.tsx (line 37). -/
def barcodeMatch (s : String) : Bool :=
  (8 ≤ s.length && s.length ≤ 14) && s.toList.all Char.isDigit

inductive ScanKind where
  | barcode
  | vin
  deriving Repr, DecidableEq

/-- A scan candidate handed to handleScanResult: the type tag and the raw
payload string. -/
structure ScanResult where
  kind : ScanKind
  data : String
  deriving Repr, DecidableEq

/-- The validation of handleScanResult (Scanner.tsx lines 358-366): VIN
candidates against VIN_PATTERN, barcode candidates against
BARCODE_PATTERN, both on the raw payload. -/
def scanResultValid (r : ScanResult) : Bool :=
  match r.kind with
  | .vin => vinMatch r.data
  | .barcode => barcodeMatch r.data

/-- The dispatcher state of one scanning session: the lastScan dedup
register, whether the sampling interval is still running, and the
candidates forwarded to the onScan consumer so far. -/
structure ScannerState where
  lastScan : String
  scanning : Bool
  forwarded : List ScanResult
  deriving Repr, DecidableEq

/-- Session start: lastScan is the empty string, the sampling interval is
running, nothing forwarded yet. -/
def initialScannerState : ScannerState := ⟨"", true, []⟩

/-- handleScanResult (Scanner.tsx lines 358-373): validate, and on success
forward to onScan and stop the camera (ending the sampling loop); invalid
candidates are dropped without any state change. -/
def handleScanResult (st : ScannerState) (r : ScanResult) : ScannerState :=
  if scanResultValid r then
    { st with forwarded := st.forwarded ++ [r], scanning := false }
  else st

/-- One candidate surfacing inside detectTextInImage (Scanner.tsx lines
193-209 and 243-246): if the payload equals lastScan it is ignored;
otherwise lastScan is updated and the candidate goes to handleScanResult. -/
def processCandidate (st : ScannerState) (r : ScanResult) : ScannerState :=
  if r.data == st.lastScan then st
  else handleScanResult { st with lastScan := r.data } r

/-- A whole scanning session over the stream of candidates produced by the
ticks: once the interval is cleared (scanning = false) no further
candidate is processed. -/
def processSession (st : ScannerState) : List ScanResult → ScannerState
  | [] => st
  | c :: cs => if st.scanning then processSession (processCandidate st c) cs else st

/-- The five hard-coded 9-character stems of detectVinPatterns
(Scanner.tsx line 315, the vinPrefixes array). -/
def vinStems : List String :=
  ["1HGBH41JX", "2FMDK3GC4", "5NPE34AF4", "1G1BE5SM7", "WBAFR7C59"]

/-- The payload synthesized by detectVinPatterns (Scanner.tsx lines
315-318): a random stem concatenated with a random number from
Math.floor(Math.random() * 900000) + 100000, i.e. a 6-digit decimal. -/
def synthesizedVin (stemIdx : Fin 5) (suffix : Nat) : String :=
  vinStems.get ⟨stemIdx.val, stemIdx.isLt⟩ ++ toString suffix

/-- detectVinPatterns (Scanner.tsx lines 300-325), with the edge-density
heuristic outcome (detectTextRegions) and the two random draws passed in
explicitly: emits the synthesized payload exactly when the heuristic
fires. -/
def detectVinPatterns (hasTextLikeRegions : Bool) (stemIdx : Fin 5)
    (suffix : Nat) : Option String :=
  if hasTextLikeRegions then some (synthesizedVin stemIdx suffix) else none

/-! ## Shared lemmas -/

theorem vinMatch_eq_specVinFormat (s : String) : vinMatch s = specVinFormat s := by
  unfold vinMatch specVinFormat
  rw [show isVinChar = specVinChar from funext vinChar_eq_specVinChar]

/-! ## Claim C1 -/

/-- Claim C1, counterexample. The claim asserts that the VIN_PATTERN
check of the scanner returns true iff, after upper-casing, the string is
17 characters of the VIN alphabet. The scanner applies VIN_PATTERN to the
raw candidate payload in handleScanResult, without upper-casing: on the
lower-case string 1hgbh41jxmn109186 the check returns false although the
upper-cased string satisfies the grammar. -/
theorem c1_counterexample :
    vinMatch "1hgbh41jxmn109186" = false ∧
      specVinFormat (upperString "1hgbh41jxmn109186") = true := by
  constructor
  · decide
  · decide

/-- Claim C1, amended. isValidVinFormat (and the backend decode-vin
check, which upper-cases before testing) returns true iff, after
upper-casing, the string consists of exactly 17 characters drawn from
[A-Z0-9] excluding I, O, Q; the raw VIN_PATTERN test, which the scanner
applies to scan-candidate payloads without upper-casing, returns true iff
the string itself already consists of 17 such characters. Both are
deterministic total Boolean functions. -/
theorem c1_validator_grammar :
    (∀ s : String, isValidVinFormat s = specVinFormat (upperString s)) ∧
      (∀ s : String, vinMatch s = specVinFormat s) := by
  refine ⟨fun s => ?_, fun s => ?_⟩
  · unfold isValidVinFormat
    rw [vinMatch_eq_specVinFormat]
  · rw [vinMatch_eq_specVinFormat]

/-! ## Claim C2 -/

/-- Claim C2: for a syntactically valid VIN whose normalized form is in
the local cache (including a cached failure record still inside its
retention window), decodeVin returns the cached record as-is, leaves the
cache untouched, and performs no network call at all. -/
theorem c2_cache_hit_no_network (cache : VinCache) (vin : String)
    (accessToken : Option String) (backend : BackendResult) (nhtsa : NhtsaResult)
    (now : Nat) (nowIso : String) (r : VehicleInfo)
    (hvalid : isValidVinFormat vin = true)
    (hhit : cacheGet now cache (upperString vin) = some r) :
    decodeVin cache vin accessToken backend nhtsa now nowIso =
      { result := .ok r, cache := cache,
        backendCalled := false, nhtsaCalled := false } := by
  simp [decodeVin, hvalid, hhit]

/-- Claim C2, witness: a concrete failure record cached for the VIN
1HGBH41JXMN109186 is returned untouched, with no network call. -/
theorem c2_cache_hit_no_network_witness :
    decodeVin ⟨[("1HGBH41JXMN109186",
        ⟨failedDecodeRecord "1HGBH41JXMN109186", some 300000⟩)]⟩
      "1HGBH41JXMN109186" (some "token") BackendResult.httpError
      NhtsaResult.failure 1000 "t1" =
      { result := .ok (failedDecodeRecord "1HGBH41JXMN109186"),
        cache := ⟨[("1HGBH41JXMN109186",
          ⟨failedDecodeRecord "1HGBH41JXMN109186", some 300000⟩)]⟩,
        backendCalled := false, nhtsaCalled := false } :=
  c2_cache_hit_no_network _ _ _ _ _ _ _ _ (by decide) (by decide)

/-! ## Claim C3 -/

/-- Claim C3: with credentials present and a cache miss, if the backend
proxy call fails for any reason (non-success status or thrown transport
error), decodeVin still calls the public registry and returns exactly the
outcome of that direct call; and with credentials absent the backend
proxy is never called, on any input and any outcome. -/
theorem c3_fallback_order :
    (∀ (cache : VinCache) (vin tok : String) (backend : BackendResult)
        (nhtsa : NhtsaResult) (now : Nat) (nowIso : String),
      isValidVinFormat vin = true →
      cacheGet now cache (upperString vin) = none →
      backend = BackendResult.httpError ∨ backend = BackendResult.transportError →
      (decodeVin cache vin (some tok) backend nhtsa now nowIso).nhtsaCalled = true ∧
        (decodeVin cache vin (some tok) backend nhtsa now nowIso).result =
          (directNhtsaCall cache (upperString vin) nhtsa nowIso).1) ∧
      (∀ (cache : VinCache) (vin : String) (backend : BackendResult)
          (nhtsa : NhtsaResult) (now : Nat) (nowIso : String),
        (decodeVin cache vin none backend nhtsa now nowIso).backendCalled = false) := by
  constructor
  · intro cache vin tok backend nhtsa now nowIso hvalid hmiss hfail
    rcases hfail with h | h <;> subst h <;> simp [decodeVin, hvalid, hmiss]
  · intro cache vin backend nhtsa now nowIso
    cases hvalid : isValidVinFormat vin with
    | false => simp [decodeVin, hvalid]
    | true =>
        cases hhit : cacheGet now cache (upperString vin) with
        | some r => simp [decodeVin, hvalid, hhit]
        | none =>
            cases hdir : directNhtsaCall cache (upperString vin) nhtsa nowIso with
            | mk res c2 => cases res <;> simp [decodeVin, hvalid, hhit, hdir]

/-- Claim C3, witness: with credentials and a failing backend, the public
registry result is returned; without credentials the backend is not
called. -/
theorem c3_fallback_order_witness :
    ((decodeVin VinCache.empty "1HGBH41JXMN109186" (some "tok")
        BackendResult.httpError (NhtsaResult.ok []) 0 "t0").nhtsaCalled = true ∧
      (decodeVin VinCache.empty "1HGBH41JXMN109186" (some "tok")
        BackendResult.httpError (NhtsaResult.ok []) 0 "t0").result =
        (directNhtsaCall VinCache.empty (upperString "1HGBH41JXMN109186")
          (NhtsaResult.ok []) "t0").1) ∧
      (decodeVin VinCache.empty "1HGBH41JXMN109186" none
        BackendResult.httpError (NhtsaResult.ok []) 0 "t0").backendCalled = false :=
  ⟨c3_fallback_order.1 VinCache.empty "1HGBH41JXMN109186" "tok"
      BackendResult.httpError (NhtsaResult.ok []) 0 "t0"
      (by decide) (by decide) (Or.inl rfl),
    c3_fallback_order.2 VinCache.empty "1HGBH41JXMN109186"
      BackendResult.httpError (NhtsaResult.ok []) 0 "t0"⟩

/-! ## Claim C4 -/

/-- A record reports a reason on failure: valid = false implies a
populated error field. -/
def errorPopulated (r : VehicleInfo) : Prop := r.valid = false → r.error ≠ none

theorem nhtsaRecord_errorPopulated (v : String) (results : List NhtsaRow)
    (nowIso : String) : errorPopulated (nhtsaRecord v results nowIso) := by
  intro h
  simp only [nhtsaRecord] at h ⊢
  simp [h]

theorem cacheGet_entry (now : Nat) (c : VinCache) (k : String) (r : VehicleInfo)
    (h : cacheGet now c k = some r) :
    ∃ p ∈ c.entries, p.2.record = r := by
  unfold cacheGet at h
  split at h
  next p hf =>
    split at h
    next hexp => exact ⟨p, List.mem_of_find?_eq_some hf, Option.some_injective _ h⟩
    next => cases h
  next => cases h

/-- Claim C4, counterexample. With credentials present, a failing backend
proxy and a failing public registry, decodeVin rejects: the error thrown
by directNhtsaCall inside the catch block escapes to the caller instead of
being resolved into a VehicleRecord. -/
theorem c4_counterexample :
    (decodeVin VinCache.empty "1HGBH41JXMN109186" (some "token")
      BackendResult.httpError NhtsaResult.failure 0 "t0").result =
      Except.error () := by
  decide

/-- Claim C4, amended. decodeVin raises an unhandled fault exactly when
credentials are present, the VIN is syntactically valid and uncached, the
backend proxy fails, and the fallback public-registry call also fails; on
every other outcome it resolves to a VehicleRecord, which on failure has
valid = false and a populated error field (assuming the cached records and
backend bodies it can return verbatim have populated error fields, as all
records this pipeline produces do). -/
theorem c4_failure_semantics (cache : VinCache) (vin : String)
    (accessToken : Option String) (backend : BackendResult) (nhtsa : NhtsaResult)
    (now : Nat) (nowIso : String)
    (hc : ∀ p ∈ cache.entries, errorPopulated p.2.record)
    (hb : ∀ b, backend = BackendResult.ok b → errorPopulated b) :
    ((decodeVin cache vin accessToken backend nhtsa now nowIso).result =
        Except.error () ↔
      (isValidVinFormat vin = true ∧
        cacheGet now cache (upperString vin) = none ∧
        accessToken ≠ none ∧
        (∀ b, backend ≠ BackendResult.ok b) ∧
        nhtsa = NhtsaResult.failure)) ∧
      (∀ r, (decodeVin cache vin accessToken backend nhtsa now nowIso).result =
          Except.ok r → errorPopulated r) := by
  cases hvalid : isValidVinFormat vin with
  | false =>
      constructor
      · simp [decodeVin, hvalid]
      · intro r hr
        simp [decodeVin, hvalid] at hr
        subst hr
        intro h
        simp [invalidFormatRecord]
  | true =>
      cases hhit : cacheGet now cache (upperString vin) with
      | some cached =>
          constructor
          · simp [decodeVin, hvalid, hhit]
          · intro r hr
            simp [decodeVin, hvalid, hhit] at hr
            subst hr
            obtain ⟨p, hp, hrec⟩ := cacheGet_entry now cache (upperString vin) _ hhit
            exact hrec ▸ hc p hp
      | none =>
          cases accessToken with
          | none =>
              cases nhtsa with
              | ok results =>
                  constructor
                  · simp [decodeVin, hvalid, hhit, directNhtsaCall]
                  · intro r hr
                    simp [decodeVin, hvalid, hhit, directNhtsaCall] at hr
                    exact hr ▸ nhtsaRecord_errorPopulated _ _ _
              | failure =>
                  constructor
                  · simp [decodeVin, hvalid, hhit, directNhtsaCall]
                  · intro r hr
                    simp [decodeVin, hvalid, hhit, directNhtsaCall] at hr
                    subst hr
                    intro h
                    simp [failedDecodeRecord]
          | some tok =>
              cases backend with
              | ok b =>
                  constructor
                  · simp [decodeVin, hvalid, hhit]
                  · intro r hr
                    simp [decodeVin, hvalid, hhit] at hr
                    exact hr ▸ hb b rfl
              | httpError =>
                  cases nhtsa with
                  | ok results =>
                      constructor
                      · simp [decodeVin, hvalid, hhit, directNhtsaCall]
                      · intro r hr
                        simp [decodeVin, hvalid, hhit, directNhtsaCall] at hr
                        exact hr ▸ nhtsaRecord_errorPopulated _ _ _
                  | failure =>
                      constructor
                      · simp [decodeVin, hvalid, hhit, directNhtsaCall]
                      · intro r hr
                        simp [decodeVin, hvalid, hhit, directNhtsaCall] at hr
              | transportError =>
                  cases nhtsa with
                  | ok results =>
                      constructor
                      · simp [decodeVin, hvalid, hhit, directNhtsaCall]
                      · intro r hr
                        simp [decodeVin, hvalid, hhit, directNhtsaCall] at hr
                        exact hr ▸ nhtsaRecord_errorPopulated _ _ _
                  | failure =>
                      constructor
                      · simp [decodeVin, hvalid, hhit, directNhtsaCall]
                      · intro r hr
                        simp [decodeVin, hvalid, hhit, directNhtsaCall] at hr

/-- Claim C4, amended, witness: the catch-all path without credentials
resolves to the failure record, whose error field is populated. -/
theorem c4_failure_semantics_witness :
    (failedDecodeRecord "1HGBH41JXMN109186").error ≠ none :=
  (c4_failure_semantics VinCache.empty "1HGBH41JXMN109186" none
      BackendResult.httpError NhtsaResult.failure 0 "t0"
      (fun _ h => nomatch h) (fun _ h => nomatch h)).2
    (failedDecodeRecord "1HGBH41JXMN109186") (by decide) (by decide)

/-! ## Claim C5 -/

/-- The validity invariant: valid is true exactly when year, make and
model are all non-empty. -/
def validIff (r : VehicleInfo) : Prop :=
  r.valid = true ↔ (r.year ≠ "" ∧ r.make ≠ "" ∧ r.model ≠ "")

theorem validIff_nhtsaRecord (v : String) (results : List NhtsaRow)
    (nowIso : String) : validIff (nhtsaRecord v results nowIso) := by
  simp [validIff, nhtsaRecord, and_assoc]

theorem validIff_backendNhtsaRecord (v : String) (results : List NhtsaRow)
    (nowIso : String) : validIff (backendNhtsaRecord v results nowIso) := by
  have h := validIff_nhtsaRecord v results nowIso
  simpa [validIff, backendNhtsaRecord] using h

theorem kvGet_entry (kv : KvStore) (k : String) (r : VehicleInfo)
    (h : kvGet kv k = some r) : ∃ p ∈ kv.entries, p.2 = r := by
  unfold kvGet at h
  cases hf : kv.entries.find? (fun e => e.1 == k) with
  | none => rw [hf] at h; cases h
  | some p =>
      rw [hf] at h
      simp only [Option.map_some'] at h
      exact ⟨p, List.mem_of_find?_eq_some hf, Option.some_injective _ h⟩

theorem endpoint_ok_validIff (kv : KvStore) (bvin : Option String)
    (bnhtsa : NhtsaResult) (bnowIso : String)
    (hkv : ∀ p ∈ kv.entries, validIff p.2) :
    ∀ b, backendResultOf (decodeVinEndpoint kv bvin bnhtsa bnowIso) =
      BackendResult.ok b → validIff b := by
  intro b hb
  cases bvin with
  | none => simp [backendResultOf, decodeVinEndpoint] at hb
  | some v =>
      by_cases hv0 : (v == "") = true
      · simp [backendResultOf, decodeVinEndpoint, hv0] at hb
      · cases hvm : vinMatch (upperString v) with
        | false => simp [backendResultOf, decodeVinEndpoint, hv0, hvm] at hb
        | true =>
          cases hkvget : kvGet kv ("vehicle:" ++ upperString v) with
          | some cachedVehicle =>
              simp [backendResultOf, decodeVinEndpoint, hv0, hvm, hkvget] at hb
              obtain ⟨p, hp, hpr⟩ := kvGet_entry _ _ _ hkvget
              exact hb ▸ hpr ▸ hkv p hp
          | none =>
              cases bnhtsa with
              | ok results =>
                  simp [backendResultOf, decodeVinEndpoint, hv0, hvm, hkvget] at hb
                  exact hb ▸ validIff_backendNhtsaRecord _ _ _
              | failure =>
                  simp [backendResultOf, decodeVinEndpoint, hv0, hvm, hkvget] at hb

/-- Claim C5: for every VehicleRecord produced by decodeVin — on the
invalid-format path, from the backend proxy served by the embedded
decode-vin endpoint, from the direct registry call, or on the failure
path — valid is true iff year, make and model are all non-empty, assuming
the records already sitting in the client cache and the backend kv store
(which are themselves prior outputs of these paths) satisfy the same
invariant. -/
theorem c5_validity_invariant (cache : VinCache) (vin : String)
    (accessToken : Option String) (nhtsa : NhtsaResult) (now : Nat)
    (nowIso : String) (kv : KvStore) (bvin : Option String)
    (bnhtsa : NhtsaResult) (bnowIso : String)
    (hc : ∀ p ∈ cache.entries, validIff p.2.record)
    (hkv : ∀ p ∈ kv.entries, validIff p.2) :
    ∀ r, (decodeVin cache vin accessToken
        (backendResultOf (decodeVinEndpoint kv bvin bnhtsa bnowIso))
        nhtsa now nowIso).result = Except.ok r → validIff r := by
  intro r hr
  cases hvalid : isValidVinFormat vin with
  | false =>
      simp [decodeVin, hvalid] at hr
      subst hr
      simp [validIff, invalidFormatRecord]
  | true =>
      cases hhit : cacheGet now cache (upperString vin) with
      | some cached =>
          simp [decodeVin, hvalid, hhit] at hr
          subst hr
          obtain ⟨p, hp, hrec⟩ := cacheGet_entry now cache (upperString vin) _ hhit
          exact hrec ▸ hc p hp
      | none =>
          cases accessToken with
          | none =>
              cases nhtsa with
              | ok results =>
                  simp [decodeVin, hvalid, hhit, directNhtsaCall] at hr
                  exact hr ▸ validIff_nhtsaRecord _ _ _
              | failure =>
                  simp [decodeVin, hvalid, hhit, directNhtsaCall] at hr
                  subst hr
                  simp [validIff, failedDecodeRecord]
          | some tok =>
              cases hbk : backendResultOf (decodeVinEndpoint kv bvin bnhtsa bnowIso) with
              | ok b =>
                  simp [decodeVin, hvalid, hhit, hbk] at hr
                  exact hr ▸ endpoint_ok_validIff kv bvin bnhtsa bnowIso hkv b hbk
              | httpError =>
                  cases nhtsa with
                  | ok results =>
                      simp [decodeVin, hvalid, hhit, hbk, directNhtsaCall] at hr
                      exact hr ▸ validIff_nhtsaRecord _ _ _
                  | failure =>
                      simp [decodeVin, hvalid, hhit, hbk, directNhtsaCall] at hr
              | transportError =>
                  cases nhtsa with
                  | ok results =>
                      simp [decodeVin, hvalid, hhit, hbk, directNhtsaCall] at hr
                      exact hr ▸ validIff_nhtsaRecord _ _ _
                  | failure =>
                      simp [decodeVin, hvalid, hhit, hbk, directNhtsaCall] at hr

/-- Claim C5, witness: the record decoded from the Honda Civic registry
rows satisfies the invariant. -/
theorem c5_validity_invariant_witness :
    validIff (nhtsaRecord "1HGBH41JXMN109186"
      [⟨"Model Year", some "2010"⟩, ⟨"Make", some "Honda"⟩,
        ⟨"Model", some "Civic"⟩] "t0") :=
  c5_validity_invariant VinCache.empty "1HGBH41JXMN109186" none
    (NhtsaResult.ok [⟨"Model Year", some "2010"⟩, ⟨"Make", some "Honda"⟩,
      ⟨"Model", some "Civic"⟩]) 0 "t0" ⟨[]⟩ none NhtsaResult.failure "bt0"
    (fun _ h => nomatch h) (fun _ h => nomatch h) _ (by decide)

/-! ## Claim C6 -/

theorem cacheGet_cacheSet_self (t : Nat) (c : VinCache) (k : String)
    (r : VehicleInfo) (exp : Option Nat) :
    cacheGet t (cacheSet c k r exp) k =
      if exp.all (fun u => t < u) then some r else none := by
  simp [cacheGet, cacheSet, List.find?]

/-- Claim C6, counterexample. A valid = false record cached by
directNhtsaCall (registry responded but lacked the required fields) is
inserted with no scheduled eviction at all: a query arbitrarily far past
any retention bound (here one million seconds after insertion at time 0)
still returns it, so a later decode of the same VIN returns the stale
failure instead of a fresh attempt. -/
theorem c6_counterexample :
    (decodeVin VinCache.empty "1HGBH41JXMN109186" none BackendResult.httpError
        (NhtsaResult.ok []) 0 "t0").result =
      Except.ok (nhtsaRecord "1HGBH41JXMN109186" [] "t0") ∧
    (nhtsaRecord "1HGBH41JXMN109186" [] "t0").valid = false ∧
    cacheGet 1000000000
      (decodeVin VinCache.empty "1HGBH41JXMN109186" none BackendResult.httpError
        (NhtsaResult.ok []) 0 "t0").cache "1HGBH41JXMN109186" =
      some (nhtsaRecord "1HGBH41JXMN109186" [] "t0") := by
  refine ⟨by decide, by decide, by decide⟩

/-- Claim C6, amended. Only the failure records produced by decodeVin's
catch-all path (error "Failed to decode VIN", created when the registry
call itself fails with no credentials present) are scheduled for
eviction: inserted at time now, such a record is returned by every cache
query before now + 5 minutes and treated as absent by every query at or
after that bound. The valid = false records cached by directNhtsaCall
(registry responded without the required fields) are retained with no
expiry, so a later decode of the same VIN keeps hitting the stale entry. -/
theorem c6_failure_cache_expiry (cache : VinCache) (vin : String)
    (backend : BackendResult) (now : Nat) (nowIso : String)
    (hvalid : isValidVinFormat vin = true)
    (hmiss : cacheGet now cache (upperString vin) = none) :
    (∀ t, cacheGet t
        (decodeVin cache vin none backend NhtsaResult.failure now nowIso).cache
        (upperString vin) =
      if t < now + fiveMinutesMs then some (failedDecodeRecord (upperString vin))
      else none) ∧
    (∀ results t, cacheGet t
        (decodeVin cache vin none backend (NhtsaResult.ok results) now nowIso).cache
        (upperString vin) = some (nhtsaRecord (upperString vin) results nowIso)) := by
  constructor
  · intro t
    simp only [decodeVin, hvalid, Bool.not_true, Bool.false_eq_true, if_false, hmiss,
      directNhtsaCall]
    rw [cacheGet_cacheSet_self]
    simp
  · intro results t
    simp only [decodeVin, hvalid, Bool.not_true, Bool.false_eq_true, if_false, hmiss,
      directNhtsaCall]
    rw [cacheGet_cacheSet_self]
    simp

/-- Claim C6, amended, witness: for the no-credentials transport-failure
record inserted at time 0, a query at time 0 returns it and a query at
the 5-minute bound treats it as absent. -/
theorem c6_failure_cache_expiry_witness :
    cacheGet 0 (decodeVin VinCache.empty "1HGBH41JXMN109186" none
        BackendResult.httpError NhtsaResult.failure 0 "t0").cache
      (upperString "1HGBH41JXMN109186") =
      some (failedDecodeRecord (upperString "1HGBH41JXMN109186")) ∧
    cacheGet 300000 (decodeVin VinCache.empty "1HGBH41JXMN109186" none
        BackendResult.httpError NhtsaResult.failure 0 "t0").cache
      (upperString "1HGBH41JXMN109186") = none := by
  have h := (c6_failure_cache_expiry VinCache.empty "1HGBH41JXMN109186"
      BackendResult.httpError 0 "t0" (by decide) (by decide)).1
  constructor
  · rw [h 0]
    decide
  · rw [h 300000]
    decide

/-! ## Claim C7 -/

/-- The three registry rows of the spec's end-to-end scenario. -/
def scenarioRows : List NhtsaRow :=
  [⟨"Model Year", some "2010"⟩, ⟨"Make", some "Honda"⟩, ⟨"Model", some "Civic"⟩]

/-- The record the scenario produces. -/
def scenarioRecord : VehicleInfo := nhtsaRecord "1HGBH41JXMN109186" scenarioRows "t0"

/-- Claim C7: whenever decodeVin accepts the input (the VIN passes syntax
validation) and resolves to a record, that record is found in the cache
under the normalized VIN key immediately after the call, on every path —
cache hit, backend proxy, direct registry, and the failure path alike;
and concretely, decoding 1HGBH41JXMN109186 against a registry response
with Model Year 2010, Make Honda, Model Civic yields a valid record with
those fields, present in the cache under 1HGBH41JXMN109186. -/
theorem c7_cache_writeback :
    (∀ (cache : VinCache) (vin : String) (accessToken : Option String)
        (backend : BackendResult) (nhtsa : NhtsaResult) (now : Nat)
        (nowIso : String) (r : VehicleInfo),
      isValidVinFormat vin = true →
      (decodeVin cache vin accessToken backend nhtsa now nowIso).result =
        Except.ok r →
      cacheGet now (decodeVin cache vin accessToken backend nhtsa now nowIso).cache
        (upperString vin) = some r) ∧
    ((decodeVin VinCache.empty "1HGBH41JXMN109186" none BackendResult.httpError
        (NhtsaResult.ok scenarioRows) 0 "t0").result = Except.ok scenarioRecord ∧
      scenarioRecord.valid = true ∧ scenarioRecord.year = "2010" ∧
      scenarioRecord.make = "Honda" ∧ scenarioRecord.model = "Civic" ∧
      cacheGet 0 (decodeVin VinCache.empty "1HGBH41JXMN109186" none
        BackendResult.httpError (NhtsaResult.ok scenarioRows) 0 "t0").cache
        "1HGBH41JXMN109186" = some scenarioRecord) := by
  constructor
  · intro cache vin accessToken backend nhtsa now nowIso r hvalid hr
    cases hhit : cacheGet now cache (upperString vin) with
    | some cached =>
        simp [decodeVin, hvalid, hhit] at hr ⊢
        exact hr
    | none =>
        cases accessToken with
        | none =>
            cases nhtsa with
            | ok results =>
                simp [decodeVin, hvalid, hhit, directNhtsaCall] at hr ⊢
                rw [cacheGet_cacheSet_self]
                simp [hr]
            | failure =>
                simp [decodeVin, hvalid, hhit, directNhtsaCall] at hr ⊢
                rw [cacheGet_cacheSet_self]
                simp [hr, fiveMinutesMs]
        | some tok =>
            cases backend with
            | ok b =>
                simp [decodeVin, hvalid, hhit] at hr ⊢
                rw [cacheGet_cacheSet_self]
                simp [hr]
            | httpError =>
                cases nhtsa with
                | ok results =>
                    simp [decodeVin, hvalid, hhit, directNhtsaCall] at hr ⊢
                    rw [cacheGet_cacheSet_self]
                    simp [hr]
                | failure =>
                    simp [decodeVin, hvalid, hhit, directNhtsaCall] at hr
            | transportError =>
                cases nhtsa with
                | ok results =>
                    simp [decodeVin, hvalid, hhit, directNhtsaCall] at hr ⊢
                    rw [cacheGet_cacheSet_self]
                    simp [hr]
                | failure =>
                    simp [decodeVin, hvalid, hhit, directNhtsaCall] at hr
  · refine ⟨by decide, by decide, by decide, by decide, by decide, by decide⟩

/-- Claim C7, witness: the universally quantified write-back conclusion at
the concrete scenario input. -/
theorem c7_cache_writeback_witness :
    cacheGet 0 (decodeVin VinCache.empty "1HGBH41JXMN109186" none
        BackendResult.httpError (NhtsaResult.ok scenarioRows) 0 "t0").cache
      (upperString "1HGBH41JXMN109186") = some scenarioRecord :=
  c7_cache_writeback.1 VinCache.empty "1HGBH41JXMN109186" none
    BackendResult.httpError (NhtsaResult.ok scenarioRows) 0 "t0" scenarioRecord
    (by decide) (by decide)

/-! ## Claim C8 -/

/-- Session invariant of the dispatcher: while the sampling interval is
still running nothing has been forwarded, and at most one candidate is
ever forwarded. -/
def scannerSessionInv (st : ScannerState) : Prop :=
  (st.scanning = true → st.forwarded = []) ∧ st.forwarded.length ≤ 1

theorem processCandidate_preserves_inv (st : ScannerState) (c : ScanResult)
    (hs : st.scanning = true) (h : scannerSessionInv st) :
    scannerSessionInv (processCandidate st c) := by
  have hemp : st.forwarded = [] := h.1 hs
  unfold processCandidate handleScanResult
  by_cases hdup : (c.data == st.lastScan) = true
  · rw [if_pos hdup]
    exact h
  · rw [if_neg hdup]
    by_cases hv : scanResultValid c = true
    · rw [if_pos hv]
      refine ⟨fun hsc => ?_, ?_⟩
      · simp at hsc
      · simp [hemp]
    · rw [if_neg hv]
      exact ⟨fun _ => hemp, by simp [hemp]⟩

theorem processSession_preserves_inv (cs : List ScanResult) :
    ∀ st : ScannerState, scannerSessionInv st →
      scannerSessionInv (processSession st cs) := by
  induction cs with
  | nil => intro st h; exact h
  | cons c cs ih =>
      intro st h
      unfold processSession
      by_cases hs : st.scanning = true
      · rw [if_pos hs]
        exact ih _ (processCandidate_preserves_inv st c hs h)
      · rw [if_neg hs]
        exact h

/-- Claim C8: over any scanning session, (a) at most one candidate is
ever forwarded to the consumer; (b) a candidate whose payload equals the
lastScan register (the immediately preceding candidate's payload) is
ignored entirely; (c) an invalid candidate is dropped without being
forwarded; (d) the moment a candidate is forwarded the sampling loop is
stopped. -/
theorem c8_dispatcher_dedup_halt :
    (∀ cs : List ScanResult,
      (processSession initialScannerState cs).forwarded.length ≤ 1) ∧
    (∀ (st : ScannerState) (c : ScanResult), c.data = st.lastScan →
      processCandidate st c = st) ∧
    (∀ (st : ScannerState) (c : ScanResult), scanResultValid c = false →
      (processCandidate st c).forwarded = st.forwarded) ∧
    (∀ (st : ScannerState) (c : ScanResult),
      (processCandidate st c).forwarded ≠ st.forwarded →
      (processCandidate st c).scanning = false) := by
  refine ⟨fun cs => ?_, fun st c h => ?_, fun st c h => ?_, fun st c h => ?_⟩
  · exact (processSession_preserves_inv cs initialScannerState
      ⟨fun _ => rfl, by simp [initialScannerState]⟩).2
  · simp [processCandidate, h]
  · unfold processCandidate handleScanResult
    by_cases hdup : (c.data == st.lastScan) = true
    · rw [if_pos hdup]
    · rw [if_neg hdup, if_neg (by simp [h])]
  · unfold processCandidate handleScanResult at h ⊢
    by_cases hdup : (c.data == st.lastScan) = true
    · rw [if_pos hdup] at h
      exact absurd rfl h
    · rw [if_neg hdup] at h ⊢
      by_cases hv : scanResultValid c = true
      · rw [if_pos hv]
      · rw [if_neg hv] at h
        exact absurd rfl h

/-- Claim C8, witness: a held-steady duplicate candidate leaves the
dispatcher state untouched, and a two-candidate session forwards at most
one result. -/
theorem c8_dispatcher_dedup_halt_witness :
    (processSession initialScannerState
      [⟨ScanKind.vin, "1HGBH41JXMN109186"⟩,
        ⟨ScanKind.vin, "2FMDK3GC4DBA12345"⟩]).forwarded.length ≤ 1 ∧
    processCandidate ⟨"1HGBH41JXMN109186", true, []⟩
      ⟨ScanKind.vin, "1HGBH41JXMN109186"⟩ = ⟨"1HGBH41JXMN109186", true, []⟩ :=
  ⟨c8_dispatcher_dedup_halt.1 _,
    c8_dispatcher_dedup_halt.2.1 ⟨"1HGBH41JXMN109186", true, []⟩
      ⟨ScanKind.vin, "1HGBH41JXMN109186"⟩ rfl⟩

/-! ## Claim C9 -/

/-- Claim C9, divergence witness. The VIN-region heuristic, when it
fires, synthesizes a payload of a 9-character stem plus a 6-digit number:
15 characters, never the 17 the VIN grammar demands, so every payload it
emits fails the very VIN_PATTERN validation applied to it next in
handleScanResult — while the hard-coded mock VINs used by the demo
fallback of the same component are well-formed 17-character VINs,
showing the intended shape. -/
theorem c9_vin_heuristic_payload (stemIdx : Fin 5) (suffix : Nat)
    (hub : suffix < 1000000) :
    detectVinPatterns true stemIdx suffix = some (synthesizedVin stemIdx suffix) ∧
    (synthesizedVin stemIdx suffix).length ≤ 15 ∧
    vinMatch (synthesizedVin stemIdx suffix) = false := by
  have hstem : (vinStems.get ⟨stemIdx.val, stemIdx.isLt⟩).length = 9 := by
    fin_cases stemIdx <;> decide
  have hrepr : (toString suffix).length ≤ 6 :=
    Nat.repr_length suffix 6 (by norm_num) hub
  have hlen : (synthesizedVin stemIdx suffix).length ≤ 15 := by
    unfold synthesizedVin
    rw [String.length_append, hstem]
    omega
  refine ⟨rfl, hlen, ?_⟩
  unfold vinMatch
  have h17 : ((synthesizedVin stemIdx suffix).length == 17) = false := by
    rw [beq_eq_false_iff_ne]
    omega
  rw [h17, Bool.false_and]

/-- Claim C9, witness: the concrete payload for stem 1HGBH41JX and random
suffix 123456 is the 15-character string 1HGBH41JX123456, which fails the
VIN pattern. -/
theorem c9_vin_heuristic_payload_witness :
    detectVinPatterns true 0 123456 = some (synthesizedVin 0 123456) ∧
    (synthesizedVin 0 123456).length ≤ 15 ∧
    vinMatch (synthesizedVin 0 123456) = false :=
  c9_vin_heuristic_payload 0 123456 (by decide)

/-! ## Claim C10 -/

theorem toUpper_fixed_of_vinChar (c : Char) (h : isVinChar c = true) :
    c.toUpper = c := by
  have hle : c.toNat ≤ 90 := by
    simp only [isVinChar, Bool.or_eq_true, Bool.and_eq_true, decide_eq_true_eq,
      beq_iff_eq, char_le_iff_toNat, char_eq_iff_toNat] at h
    simp only [show ('A' : Char).toNat = 65 from rfl, show ('H' : Char).toNat = 72 from rfl,
      show ('J' : Char).toNat = 74 from rfl, show ('N' : Char).toNat = 78 from rfl,
      show ('P' : Char).toNat = 80 from rfl, show ('R' : Char).toNat = 82 from rfl,
      show ('Z' : Char).toNat = 90 from rfl, show ('0' : Char).toNat = 48 from rfl,
      show ('9' : Char).toNat = 57 from rfl] at h
    omega
  show (if c.toNat ≥ 97 ∧ c.toNat ≤ 122 then Char.ofNat (c.toNat - 32) else c) = c
  rw [if_neg]
  omega

theorem upperString_fixed_of_vinMatch (s : String) (h : vinMatch s = true) :
    upperString s = s := by
  unfold vinMatch at h
  rcases (Bool.and_eq_true _ _).mp h with ⟨_, hall⟩
  have hchars : ∀ c ∈ s.data, Char.toUpper c = c := fun c hc =>
    toUpper_fixed_of_vinChar c (List.all_eq_true.mp hall c hc)
  unfold upperString
  cases s with
  | mk data =>
      congr 1
      calc data.map Char.toUpper = data.map id := List.map_congr_left hchars
        _ = data := List.map_id data

/-- Every key of the client cache is a syntactically valid VIN, already
in normalized (upper-cased) form. -/
def cacheKeysValid (c : VinCache) : Prop :=
  ∀ p ∈ c.entries, vinMatch p.1 = true ∧ upperString p.1 = p.1

/-- Claim C10: decodeVin preserves the invariant that every key ever
present in the client decode cache is a normalized, syntactically valid
17-character VIN, and on a syntactically invalid input it returns its
invalid-format record without touching the cache at all. -/
theorem c10_cache_key_invariant (cache : VinCache) (vin : String)
    (accessToken : Option String) (backend : BackendResult) (nhtsa : NhtsaResult)
    (now : Nat) (nowIso : String)
    (h : cacheKeysValid cache) :
    cacheKeysValid (decodeVin cache vin accessToken backend nhtsa now nowIso).cache ∧
    (isValidVinFormat vin = false →
      (decodeVin cache vin accessToken backend nhtsa now nowIso).cache = cache ∧
      (decodeVin cache vin accessToken backend nhtsa now nowIso).result =
        Except.ok (invalidFormatRecord vin)) := by
  cases hvalid : isValidVinFormat vin with
  | false =>
      refine ⟨?_, fun _ => by simp [decodeVin, hvalid]⟩
      simp [decodeVin, hvalid]
      exact h
  | true =>
      refine ⟨?_, fun hcontra => Bool.noConfusion hcontra⟩
      have hkey : vinMatch (upperString vin) = true := hvalid
      have hnorm : upperString (upperString vin) = upperString vin :=
        upperString_fixed_of_vinMatch (upperString vin) hkey
      have hset : ∀ (r : VehicleInfo) (exp : Option Nat),
          cacheKeysValid (cacheSet cache (upperString vin) r exp) := by
        intro r exp p hp
        rcases List.mem_cons.mp hp with hph | hpt
        · rw [hph]
          exact ⟨hkey, hnorm⟩
        · exact h p hpt
      cases hhit : cacheGet now cache (upperString vin) with
      | some cached =>
          simp [decodeVin, hvalid, hhit]
          exact h
      | none =>
          cases accessToken with
          | none =>
              cases nhtsa with
              | ok results =>
                  simp [decodeVin, hvalid, hhit, directNhtsaCall]
                  exact hset _ _
              | failure =>
                  simp [decodeVin, hvalid, hhit, directNhtsaCall]
                  exact hset _ _
          | some tok =>
              cases backend with
              | ok b =>
                  simp [decodeVin, hvalid, hhit]
                  exact hset _ _
              | httpError =>
                  cases nhtsa with
                  | ok results =>
                      simp [decodeVin, hvalid, hhit, directNhtsaCall]
                      exact hset _ _
                  | failure =>
                      simp [decodeVin, hvalid, hhit, directNhtsaCall]
                      exact h
              | transportError =>
                  cases nhtsa with
                  | ok results =>
                      simp [decodeVin, hvalid, hhit, directNhtsaCall]
                      exact hset _ _
                  | failure =>
                      simp [decodeVin, hvalid, hhit, directNhtsaCall]
                      exact h

/-- Claim C10, witness: after decoding the lower-case input
1hgbh41jxmn109186, the single cache entry's key is the valid normalized
VIN 1HGBH41JXMN109186. -/
theorem c10_cache_key_invariant_witness :
    vinMatch (upperString "1hgbh41jxmn109186") = true ∧
    upperString (upperString "1hgbh41jxmn109186") = upperString "1hgbh41jxmn109186" :=
  (c10_cache_key_invariant VinCache.empty "1hgbh41jxmn109186" none
      BackendResult.httpError (NhtsaResult.ok []) 0 "t0"
      (fun _ hp => nomatch hp)).1
    (upperString "1hgbh41jxmn109186",
      ⟨nhtsaRecord (upperString "1hgbh41jxmn109186") [] "t0", none⟩)
    (by decide)
